import Mathlib

/-! Shallow embedding of the magi-github plugin (src/lib.rs).

The plugin exposes `describe`, `config_schema`, `init` and `process` to a
host runtime.  `process` dispatches a tool name to one of eight GitHub API
operations, each of which validates required arguments and then performs at
most one HTTP round trip through `github_get` or `github_post`.

Modelling choices:
* JSON values (the host `DataType` and `serde_json::Value`) are the
  inductive `Json` below; numbers are modelled as integers (no claim
  involves fractional numbers).
* The HTTP transport together with the JSON parse of the response body
  (`http::request` followed by `serde_json::from_slice`) is an oracle
  `Transport : HttpRequest → Except String Json`; an `Except.error`
  covers both a transport failure and a parse failure of the body.
* Each operation returns the Rust `FnResult` outcome (`Except.ok` for
  `Ok(Json(..))`, `Except.error` for a propagated `Err`) paired with the
  list of HTTP requests it issued, so that "no network call" is a
  statement about that list.
* The host configuration store read by `magi_pdk::get_config()` is passed
  to `process` as an explicit JSON value. -/

inductive Json where
  | null : Json
  | bool : Bool → Json
  | num : Int → Json
  | str : String → Json
  | arr : List Json → Json
  | obj : List (String × Json) → Json

/-- Field lookup on a JSON object (`DataType::get` / `Value::get`): first
matching key of an object, `none` on any non-object. -/
def Json.getField : Json → String → Option Json
  | Json.obj fields, k => fields.lookup k
  | _, _ => none

/-- The `as_str` accessor: `some` exactly on JSON strings. -/
def Json.asStr : Json → Option String
  | Json.str s => some s
  | _ => none

/-- Lower-case hexadecimal digit, used for control-character escapes. -/
def hexDigit (n : Nat) : Char :=
  if n < 10 then Char.ofNat (48 + n) else Char.ofNat (87 + n)

/-- Escape of one character inside a JSON string literal, as `serde_json`
prints it. -/
def escapeChar (c : Char) : String :=
  if c = '"' then "\\\""
  else if c = '\\' then "\\\\"
  else if c = '\x08' then "\\b"
  else if c = '\x0c' then "\\f"
  else if c = '\n' then "\\n"
  else if c = '\r' then "\\r"
  else if c = '\t' then "\\t"
  else if c.toNat < 32 then
    "\\u00" ++ String.mk [hexDigit (c.toNat / 16), hexDigit (c.toNat % 16)]
  else String.mk [c]

/-- A JSON string literal with quotes and escapes, as `serde_json` prints it. -/
def renderString (s : String) : String :=
  "\"" ++ String.join (s.data.map escapeChar) ++ "\""

mutual

/-- Compact serialization of a JSON value: `v.to_json().to_string()` in the
source (`serde_json::Value::to_string`). -/
def Json.render : Json → String
  | Json.null => "null"
  | Json.bool true => "true"
  | Json.bool false => "false"
  | Json.num n => toString n
  | Json.str s => renderString s
  | Json.arr xs => "[" ++ Json.renderList xs ++ "]"
  | Json.obj fs => "\x7b" ++ Json.renderFields fs ++ "\x7d"

/-- Comma-separated serialization of array elements. -/
def Json.renderList : List Json → String
  | [] => ""
  | [x] => Json.render x
  | x :: xs => Json.render x ++ "," ++ Json.renderList xs

/-- Comma-separated serialization of object fields. -/
def Json.renderFields : List (String × Json) → String
  | [] => ""
  | [(k, v)] => renderString k ++ ":" ++ Json.render v
  | (k, v) :: fs => renderString k ++ ":" ++ Json.render v ++ "," ++ Json.renderFields fs

end

/-- Rust `str::trim_matches(c)`: removes every leading and trailing
occurrence of `c`. -/
def trimMatches (c : Char) (s : String) : String :=
  String.mk (((s.data.dropWhile fun d => d == c).reverse.dropWhile fun d => d == c).reverse)

/-- Rust `str::starts_with`, on the character lists of the strings. -/
def strStartsWith (s pre : String) : Bool :=
  pre.data.isPrefixOf s.data

/-- The local error object `json!({"error": msg})`. -/
def jsonError (msg : String) : Json :=
  Json.obj [("error", Json.str msg)]

/-- The string value of a field: `args.get(k).and_then(|v| v.as_str())`. -/
def argStr (args : Json) (k : String) : Option String :=
  (args.getField k).bind Json.asStr

/-- String extraction with default: `args.get(k).and_then(as_str).unwrap_or(dflt)`. -/
def getStr (args : Json) (k dflt : String) : String :=
  (argStr args k).getD dflt

/-- One outbound HTTP request as built by the helpers. -/
structure HttpRequest where
  method : String
  url : String
  headers : List (String × String)
  body : Option String
deriving DecidableEq

/-- The HTTP transport plus response-body JSON parse, as an oracle. -/
def Transport : Type :=
  HttpRequest → Except String Json

/-- The common headers attached by both helpers. -/
def githubHeaders (token : String) : List (String × String) :=
  [("Authorization", "Bearer " ++ token),
   ("Accept", "application/vnd.github+json"),
   ("User-Agent", "magi-github-plugin/0.1"),
   ("X-GitHub-Api-Version", "2022-11-28")]

/-- `github_get`: prefix `https://api.github.com` unless the path already
starts with `https://`, attach headers, perform the request, and return the
parsed JSON body or the propagated failure.  The issued request is recorded. -/
def github_get (tr : Transport) (token path : String) :
    Except String Json × List HttpRequest :=
  let url := if strStartsWith path "https://" then path else "https://api.github.com" ++ path
  let req : HttpRequest := ⟨"GET", url, githubHeaders token, none⟩
  (tr req, [req])

/-- `github_post`: always prefix `https://api.github.com`, attach the common
headers plus `Content-Type`, serialize the body, perform the request. -/
def github_post (tr : Transport) (token path : String) (body : Json) :
    Except String Json × List HttpRequest :=
  let url := "https://api.github.com" ++ path
  let req : HttpRequest :=
    ⟨"POST", url, githubHeaders token ++ [("Content-Type", "application/json")], some body.render⟩
  (tr req, [req])

/-- Tool `list_repos`. -/
def list_repos (tr : Transport) (token : String) (args : Json) :
    Except String Json × List HttpRequest :=
  let owner := getStr args "owner" ""
  let path := if owner == "" then "/user/repos?per_page=30&sort=updated"
              else "/users/" ++ owner ++ "/repos?per_page=30&sort=updated"
  github_get tr token path

/-- Tool `get_repo`. -/
def get_repo (tr : Transport) (token : String) (args : Json) :
    Except String Json × List HttpRequest :=
  let owner := getStr args "owner" ""
  let repo := getStr args "repo" ""
  if owner == "" || repo == "" then
    (Except.ok (jsonError "owner and repo are required"), [])
  else
    github_get tr token ("/repos/" ++ owner ++ "/" ++ repo)

/-- Tool `list_issues`. -/
def list_issues (tr : Transport) (token : String) (args : Json) :
    Except String Json × List HttpRequest :=
  let owner := getStr args "owner" ""
  let repo := getStr args "repo" ""
  let state := getStr args "state" "open"
  if owner == "" || repo == "" then
    (Except.ok (jsonError "owner and repo are required"), [])
  else
    github_get tr token
      ("/repos/" ++ owner ++ "/" ++ repo ++ "/issues?state=" ++ state ++ "&per_page=30")

/-- Tool `create_issue`. -/
def create_issue (tr : Transport) (token : String) (args : Json) :
    Except String Json × List HttpRequest :=
  let owner := getStr args "owner" ""
  let repo := getStr args "repo" ""
  let title := getStr args "title" ""
  let body_text := getStr args "body" ""
  if owner == "" || repo == "" || title == "" then
    (Except.ok (jsonError "owner, repo, and title are required"), [])
  else
    let body := Json.obj [("title", Json.str title), ("body", Json.str body_text)]
    github_post tr token ("/repos/" ++ owner ++ "/" ++ repo ++ "/issues") body

/-- Tool `list_prs`. -/
def list_prs (tr : Transport) (token : String) (args : Json) :
    Except String Json × List HttpRequest :=
  let owner := getStr args "owner" ""
  let repo := getStr args "repo" ""
  let state := getStr args "state" "open"
  if owner == "" || repo == "" then
    (Except.ok (jsonError "owner and repo are required"), [])
  else
    github_get tr token
      ("/repos/" ++ owner ++ "/" ++ repo ++ "/pulls?state=" ++ state ++ "&per_page=30")

/-- The textual form of the `number` argument of `get_pr`:
`args.get("number").map(|v| v.to_json().to_string()).unwrap_or_default()`. -/
def numberText (args : Json) : String :=
  ((args.getField "number").map Json.render).getD ""

/-- Tool `get_pr`.  The serialized `number` is quote-trimmed before
interpolation into the path. -/
def get_pr (tr : Transport) (token : String) (args : Json) :
    Except String Json × List HttpRequest :=
  let owner := getStr args "owner" ""
  let repo := getStr args "repo" ""
  let number := numberText args
  if owner == "" || repo == "" || number == "" then
    (Except.ok (jsonError "owner, repo, and number are required"), [])
  else
    let num := trimMatches '"' number
    github_get tr token ("/repos/" ++ owner ++ "/" ++ repo ++ "/pulls/" ++ num)

/-- Tool `get_file`. -/
def get_file (tr : Transport) (token : String) (args : Json) :
    Except String Json × List HttpRequest :=
  let owner := getStr args "owner" ""
  let repo := getStr args "repo" ""
  let path := getStr args "path" ""
  let branch := getStr args "branch" "main"
  if owner == "" || repo == "" || path == "" then
    (Except.ok (jsonError "owner, repo, and path are required"), [])
  else
    github_get tr token
      ("/repos/" ++ owner ++ "/" ++ repo ++ "/contents/" ++ path ++ "?ref=" ++ branch)

/-- Tool `search_code`.  Spaces in the query are replaced by plus signs. -/
def search_code (tr : Transport) (token : String) (args : Json) :
    Except String Json × List HttpRequest :=
  let query := getStr args "query" ""
  if query == "" then
    (Except.ok (jsonError "query is required"), [])
  else
    let encoded := String.mk (query.data.map fun c => if c == ' ' then '+' else c)
    github_get tr token ("/search/code?q=" ++ encoded ++ "&per_page=20")

/-- The eight dispatchable tools, one per arm of the `match` in `process`. -/
inductive Tool where
  | listRepos | getRepo | listIssues | createIssue
  | listPrs | getPr | getFile | searchCode
deriving DecidableEq

/-- The string dispatch of the `match tool.as_str()` in `process`: which
tool, if any, a given tool name selects. -/
def routerCase (t : String) : Option Tool :=
  if t = "list_repos" then some Tool.listRepos
  else if t = "get_repo" then some Tool.getRepo
  else if t = "list_issues" then some Tool.listIssues
  else if t = "create_issue" then some Tool.createIssue
  else if t = "list_prs" then some Tool.listPrs
  else if t = "get_pr" then some Tool.getPr
  else if t = "get_file" then some Tool.getFile
  else if t = "search_code" then some Tool.searchCode
  else none

/-- The handler each router case dispatches to. -/
def runTool : Tool → Transport → String → Json → Except String Json × List HttpRequest
  | Tool.listRepos => list_repos
  | Tool.getRepo => get_repo
  | Tool.listIssues => list_issues
  | Tool.createIssue => create_issue
  | Tool.listPrs => list_prs
  | Tool.getPr => get_pr
  | Tool.getFile => get_file
  | Tool.searchCode => search_code

/-- The `process` entry point: extract `tool` (default empty string) and
`args` (default null) from the input, read the token from the host
configuration, and dispatch; an unmatched name yields the unknown-tool
error object and no request. -/
def process (tr : Transport) (config input : Json) :
    Except String Json × List HttpRequest :=
  let tool := getStr input "tool" ""
  let args := (input.getField "args").getD Json.null
  let token := getStr config "github_token" ""
  match routerCase tool with
  | some t => runTool t tr token args
  | none => (Except.ok (jsonError ("unknown tool: " ++ tool)), [])

/-- The `init` entry point: look up `github_token` in the supplied
configuration; if it is absent or not a string, return the error object,
otherwise return the success object.  Both branches of the source return
`Ok(..)` and neither touches the network, which the pairing with the empty
request list records. -/
def init (input : Json) : Except String Json × List HttpRequest :=
  let config := (input.getField "config").getD Json.null
  if (argStr config "github_token").isNone then
    (Except.ok (jsonError "github_token is required"), [])
  else
    (Except.ok (Json.obj [("success", Json.bool true)]), [])

/-- The static descriptor document returned by `describe`. -/
def describe : Json :=
  Json.obj [
    ("name", Json.str "github"),
    ("version", Json.str "0.1.0"),
    ("description", Json.str "GitHub API integration for repos, issues, PRs, and code search"),
    ("label", Json.str "mcp"),
    ("tools", Json.arr [
      Json.obj [("name", Json.str "list_repos"), ("description", Json.str "List repositories for a user or org")],
      Json.obj [("name", Json.str "get_repo"), ("description", Json.str "Get repository details")],
      Json.obj [("name", Json.str "list_issues"), ("description", Json.str "List issues for a repository")],
      Json.obj [("name", Json.str "create_issue"), ("description", Json.str "Create a new issue")],
      Json.obj [("name", Json.str "list_prs"), ("description", Json.str "List pull requests for a repository")],
      Json.obj [("name", Json.str "get_pr"), ("description", Json.str "Get pull request details")],
      Json.obj [("name", Json.str "get_file"), ("description", Json.str "Get file contents from a repository")],
      Json.obj [("name", Json.str "search_code"), ("description", Json.str "Search code across repositories")]])]

/-- The tool names listed in the descriptor, extracted from its `tools`
array. -/
def describeToolNames : List String :=
  match describe.getField "tools" with
  | some (Json.arr ts) => ts.filterMap fun t => (t.getField "name").bind Json.asStr
  | _ => []

/-- The guard each tool's validation branch tests, exactly as written in
the source (`get_pr` tests the serialized text of `number`, not its string
value). -/
def requiredMissing : Tool → Json → Bool
  | Tool.listRepos, _ => false
  | Tool.getRepo, args => getStr args "owner" "" == "" || getStr args "repo" "" == ""
  | Tool.listIssues, args => getStr args "owner" "" == "" || getStr args "repo" "" == ""
  | Tool.createIssue, args =>
      getStr args "owner" "" == "" || getStr args "repo" "" == "" || getStr args "title" "" == ""
  | Tool.listPrs, args => getStr args "owner" "" == "" || getStr args "repo" "" == ""
  | Tool.getPr, args =>
      getStr args "owner" "" == "" || getStr args "repo" "" == "" || numberText args == ""
  | Tool.getFile, args =>
      getStr args "owner" "" == "" || getStr args "repo" "" == "" || getStr args "path" "" == ""
  | Tool.searchCode, args => getStr args "query" "" == ""

/-- The fixed validation-error message of each tool (none for `list_repos`,
which validates nothing). -/
def requiredMsg : Tool → Option String
  | Tool.listRepos => none
  | Tool.getRepo => some "owner and repo are required"
  | Tool.listIssues => some "owner and repo are required"
  | Tool.createIssue => some "owner, repo, and title are required"
  | Tool.listPrs => some "owner and repo are required"
  | Tool.getPr => some "owner, repo, and number are required"
  | Tool.getFile => some "owner, repo, and path are required"
  | Tool.searchCode => some "query is required"

/-- The URLs of the requests an invocation issued. -/
def reqUrls (r : Except String Json × List HttpRequest) : List String :=
  r.snd.map fun q => q.url

/-- Method and URL of the requests an invocation issued. -/
def reqLines (r : Except String Json × List HttpRequest) : List (String × String) :=
  r.snd.map fun q => (q.method, q.url)

/-- A transport whose every request succeeds with an empty object. -/
def trOk : Transport := fun _ => Except.ok (Json.obj [])

/-- A transport whose every request fails, standing for a connection
failure or a non-JSON response body. -/
def trFail : Transport := fun _ => Except.error "connection refused"

/-- A configuration holding a token. -/
def cfg0 : Json := Json.obj [("github_token", Json.str "t")]

/-- The shape every handler outcome has: either a locally produced error
object together with no issued request, or exactly one issued request whose
transport outcome (parsed JSON on success, propagated failure otherwise) is
returned verbatim. -/
def shapeOk (tr : Transport) (r : Except String Json × List HttpRequest) : Prop :=
  (∃ msg, r = (Except.ok (jsonError msg), [])) ∨ (∃ req, r = (tr req, [req]))

/-- Spec-side definition, following the words of the validation policy: the
required fields of a tool that are actually missing (absent or not a
non-empty string) in the given arguments. -/
def specMissingFields (required : List String) (args : Json) : List String :=
  required.filter fun k => getStr args k "" == ""

/-- Spec-side definition, following the words of the claim: the error
object naming exactly the missing fields, comma-joined. -/
def specClaimedError (required : List String) (args : Json) : Json :=
  jsonError (String.intercalate ", " (specMissingFields required args) ++ " are required")

/-! Helper lemmas shared by the claim theorems. -/

lemma strStartsWith_https_false (s : String) (l : List Char) (h : s.data = '/' :: l) :
    strStartsWith s "https://" = false := by
  unfold strStartsWith
  rw [h]
  rfl

lemma reqLines_github_get (tr : Transport) (token path : String)
    (h : strStartsWith path "https://" = false) :
    reqLines (github_get tr token path) = [("GET", "https://api.github.com" ++ path)] := by
  unfold reqLines github_get
  dsimp only
  rw [h]
  rfl

lemma getStr_of_argStr (args : Json) (k dflt s : String) (h : argStr args k = some s) :
    getStr args k dflt = s := by
  simp [getStr, h]

lemma getStr_of_argStr_none (args : Json) (k dflt : String) (h : argStr args k = none) :
    getStr args k dflt = dflt := by
  simp [getStr, h]

lemma list_repos_shape (tr : Transport) (token : String) (args : Json) :
    shapeOk tr (list_repos tr token args) :=
  Or.inr ⟨_, rfl⟩

lemma get_repo_shape (tr : Transport) (token : String) (args : Json) :
    shapeOk tr (get_repo tr token args) := by
  unfold shapeOk get_repo
  dsimp only
  split
  · exact Or.inl ⟨_, rfl⟩
  · exact Or.inr ⟨_, rfl⟩

lemma list_issues_shape (tr : Transport) (token : String) (args : Json) :
    shapeOk tr (list_issues tr token args) := by
  unfold shapeOk list_issues
  dsimp only
  split
  · exact Or.inl ⟨_, rfl⟩
  · exact Or.inr ⟨_, rfl⟩

lemma create_issue_shape (tr : Transport) (token : String) (args : Json) :
    shapeOk tr (create_issue tr token args) := by
  unfold shapeOk create_issue
  dsimp only
  split
  · exact Or.inl ⟨_, rfl⟩
  · exact Or.inr ⟨_, rfl⟩

lemma list_prs_shape (tr : Transport) (token : String) (args : Json) :
    shapeOk tr (list_prs tr token args) := by
  unfold shapeOk list_prs
  dsimp only
  split
  · exact Or.inl ⟨_, rfl⟩
  · exact Or.inr ⟨_, rfl⟩

lemma get_pr_shape (tr : Transport) (token : String) (args : Json) :
    shapeOk tr (get_pr tr token args) := by
  unfold shapeOk get_pr
  dsimp only
  split
  · exact Or.inl ⟨_, rfl⟩
  · exact Or.inr ⟨_, rfl⟩

lemma get_file_shape (tr : Transport) (token : String) (args : Json) :
    shapeOk tr (get_file tr token args) := by
  unfold shapeOk get_file
  dsimp only
  split
  · exact Or.inl ⟨_, rfl⟩
  · exact Or.inr ⟨_, rfl⟩

lemma search_code_shape (tr : Transport) (token : String) (args : Json) :
    shapeOk tr (search_code tr token args) := by
  unfold shapeOk search_code
  dsimp only
  split
  · exact Or.inl ⟨_, rfl⟩
  · exact Or.inr ⟨_, rfl⟩

lemma runTool_shape (t : Tool) (tr : Transport) (token : String) (args : Json) :
    shapeOk tr (runTool t tr token args) := by
  cases t
  case listRepos => exact list_repos_shape tr token args
  case getRepo => exact get_repo_shape tr token args
  case listIssues => exact list_issues_shape tr token args
  case createIssue => exact create_issue_shape tr token args
  case listPrs => exact list_prs_shape tr token args
  case getPr => exact get_pr_shape tr token args
  case getFile => exact get_file_shape tr token args
  case searchCode => exact search_code_shape tr token args

/-- C1 (counterexample): with a transport that fails (connection failure or
non-JSON response body), a `list_repos` invocation of `process` returns the
propagated fault `Except.error`, not GitHub's raw JSON and not an error
object — so a raw fault does cross the boundary, contrary to the claim. -/
theorem C1_counterexample :
    (process trFail cfg0 (Json.obj [("tool", Json.str "list_repos")])).fst =
      Except.error "connection refused" := by
  rfl

/-- C1 (amended): every invocation of `process` either returns a locally
produced `{ error: msg }` object having issued no request, or issues exactly
one request and returns that request's transport outcome verbatim — GitHub's
parsed JSON on success, and the propagated transport/JSON-parse fault
otherwise.  Only such faults ever cross the boundary. -/
theorem C1_amended (tr : Transport) (config input : Json) :
    (∃ msg, process tr config input = (Except.ok (jsonError msg), [])) ∨
    (∃ req, process tr config input = (tr req, [req])) := by
  have hp : process tr config input =
      match routerCase (getStr input "tool" "") with
      | some t => runTool t tr (getStr config "github_token" "")
          ((input.getField "args").getD Json.null)
      | none => (Except.ok (jsonError ("unknown tool: " ++ getStr input "tool" "")), []) := rfl
  rw [hp]
  cases routerCase (getStr input "tool" "") with
  | none => exact Or.inl ⟨_, rfl⟩
  | some t => exact runTool_shape t tr _ _

/-- C2 (counterexample): for `get_repo` with `owner` supplied as the
non-empty string `"o"` and `repo` omitted, the only missing required field
is `repo`, yet the returned message is the full-set message
`owner and repo are required`, which differs from the message naming
exactly the missing fields. -/
theorem C2_counterexample :
    specMissingFields ["owner", "repo"] (Json.obj [("owner", Json.str "o")]) = ["repo"] ∧
    (process trOk cfg0 (Json.obj [("tool", Json.str "get_repo"),
        ("args", Json.obj [("owner", Json.str "o")])])).fst =
      Except.ok (jsonError "owner and repo are required") ∧
    jsonError "owner and repo are required" ≠
      specClaimedError ["owner", "repo"] (Json.obj [("owner", Json.str "o")]) := by
  refine ⟨by decide, by rfl, ?_⟩
  have hs : specClaimedError ["owner", "repo"] (Json.obj [("owner", Json.str "o")]) =
      jsonError "repo are required" := rfl
  rw [hs]
  intro h
  simp [jsonError] at h

/-- C2 (amended): invoking any tool whose validation guard detects a missing
required field (extracted as the empty string; for the `number` field of
`get_pr`, serialized to the empty string, i.e. absent) returns an error
object naming the tool's full required-field set, and issues zero outbound
HTTP requests. -/
theorem C2_amended (tr : Transport) (token : String) (args : Json) (t : Tool)
    (h : requiredMissing t args = true) :
    ∃ msg, requiredMsg t = some msg ∧
      runTool t tr token args = (Except.ok (jsonError msg), []) := by
  cases t
  case listRepos => simp [requiredMissing] at h
  case getRepo =>
    refine ⟨_, rfl, ?_⟩
    unfold runTool get_repo
    dsimp only
    simp only [requiredMissing] at h
    rw [if_pos h]
  case listIssues =>
    refine ⟨_, rfl, ?_⟩
    unfold runTool list_issues
    dsimp only
    simp only [requiredMissing] at h
    rw [if_pos h]
  case createIssue =>
    refine ⟨_, rfl, ?_⟩
    unfold runTool create_issue
    dsimp only
    simp only [requiredMissing] at h
    rw [if_pos h]
  case listPrs =>
    refine ⟨_, rfl, ?_⟩
    unfold runTool list_prs
    dsimp only
    simp only [requiredMissing] at h
    rw [if_pos h]
  case getPr =>
    refine ⟨_, rfl, ?_⟩
    unfold runTool get_pr
    dsimp only
    simp only [requiredMissing] at h
    rw [if_pos h]
  case getFile =>
    refine ⟨_, rfl, ?_⟩
    unfold runTool get_file
    dsimp only
    simp only [requiredMissing] at h
    rw [if_pos h]
  case searchCode =>
    refine ⟨_, rfl, ?_⟩
    unfold runTool search_code
    dsimp only
    simp only [requiredMissing] at h
    rw [if_pos h]

/-- C2 (witness): `get_repo` with `owner` present and `repo` missing has a
tripped guard, and the amended theorem applies with the full-set message and
no issued request. -/
theorem C2_amended_witness :
    requiredMissing Tool.getRepo (Json.obj [("owner", Json.str "o")]) = true ∧
    runTool Tool.getRepo trOk "t" (Json.obj [("owner", Json.str "o")]) =
      (Except.ok (jsonError "owner and repo are required"), []) := by
  refine ⟨by decide, ?_⟩
  obtain ⟨msg, hmsg, hrun⟩ :=
    C2_amended trOk "t" (Json.obj [("owner", Json.str "o")]) Tool.getRepo (by decide)
  have : msg = "owner and repo are required" := by
    simpa [requiredMsg] using hmsg.symm
  rw [this] at hrun
  exact hrun

/-- C3 (counterexample): `get_pr` with `owner`, `repo` supplied and `number`
supplied as JSON null — a value not representable as a non-empty string — is
not treated as missing: the router does not short-circuit with the error
object, and it issues a network request (to `/repos/o/r/pulls/null`). -/
theorem C3_counterexample :
    process trOk cfg0 (Json.obj [("tool", Json.str "get_pr"),
        ("args", Json.obj [("owner", Json.str "o"), ("repo", Json.str "r"),
                           ("number", Json.null)])]) =
      (Except.ok (Json.obj []),
       [⟨"GET", "https://api.github.com/repos/o/r/pulls/null", githubHeaders "t", none⟩]) := by
  rfl

/-- C3 (amended): for `get_pr` with non-empty `owner` and `repo`, the
`number` field is treated as missing only when the key is absent; a supplied
JSON null serializes to the text `null` and a supplied empty JSON string
serializes to a pair of quotes, so both pass validation and an HTTP request
is issued, to `.../pulls/null` and `.../pulls/` respectively. -/
theorem C3_amended (tr : Transport) (token : String) (args : Json) (owner repo : String)
    (how : argStr args "owner" = some owner) (how2 : owner ≠ "")
    (hrep : argStr args "repo" = some repo) (hrep2 : repo ≠ "") :
    (args.getField "number" = none →
      get_pr tr token args = (Except.ok (jsonError "owner, repo, and number are required"), [])) ∧
    (args.getField "number" = some Json.null →
      reqLines (get_pr tr token args) =
        [("GET", "https://api.github.com/repos/" ++ owner ++ "/" ++ repo ++ "/pulls/null")]) ∧
    (args.getField "number" = some (Json.str "") →
      reqLines (get_pr tr token args) =
        [("GET", "https://api.github.com/repos/" ++ owner ++ "/" ++ repo ++ "/pulls/")]) := by
  refine ⟨fun hn => ?_, fun hn => ?_, fun hn => ?_⟩
  · unfold get_pr
    dsimp only
    rw [show numberText args = "" by simp [numberText, hn]]
    rw [if_pos (by simp)]
  · unfold get_pr
    dsimp only
    rw [getStr_of_argStr args "owner" "" owner how, getStr_of_argStr args "repo" "" repo hrep]
    rw [show numberText args = "null" by simp [numberText, hn, Json.render]]
    rw [if_neg (by simp [how2, hrep2])]
    rw [show trimMatches '"' "null" = "null" from rfl]
    rw [reqLines_github_get tr token ("/repos/" ++ owner ++ "/" ++ repo ++ "/pulls/" ++ "null")
          (strStartsWith_https_false _ _ rfl)]
    refine congrArg (fun u => [("GET", u)]) ?_
    apply String.ext
    simp [String.data_append]
  · unfold get_pr
    dsimp only
    rw [getStr_of_argStr args "owner" "" owner how, getStr_of_argStr args "repo" "" repo hrep]
    rw [show numberText args = "\"\"" by
      rw [show numberText args = Json.render (Json.str "") by simp [numberText, hn]]
      rfl]
    rw [if_neg (by simp [how2, hrep2])]
    rw [show trimMatches '"' "\"\"" = "" from rfl]
    rw [reqLines_github_get tr token ("/repos/" ++ owner ++ "/" ++ repo ++ "/pulls/" ++ "")
          (strStartsWith_https_false _ _ rfl)]
    refine congrArg (fun u => [("GET", u)]) ?_
    apply String.ext
    simp [String.data_append]

/-- C3 (witness): at `owner = "o"`, `repo = "r"` and `number` supplied as
JSON null, the amended theorem yields the issued request to
`/repos/o/r/pulls/null`. -/
theorem C3_amended_witness :
    reqLines (get_pr trOk "t" (Json.obj [("owner", Json.str "o"), ("repo", Json.str "r"),
        ("number", Json.null)])) =
      [("GET", "https://api.github.com/repos/o/r/pulls/null")] := by
  have h := (C3_amended trOk "t"
    (Json.obj [("owner", Json.str "o"), ("repo", Json.str "r"), ("number", Json.null)])
    "o" "r" rfl (by decide) rfl (by decide)).2.1 rfl
  simpa using h

/-- C4 (counterexample): for a path that already starts with `https://`,
the POST helper does not use the path unchanged as the claim states for
both helpers: it still prepends `https://api.github.com`. -/
theorem C4_counterexample :
    strStartsWith "https://x" "https://" = true ∧
    (github_post trOk "t" "https://x" Json.null).snd.map (fun r => r.url) ≠ ["https://x"] := by
  refine ⟨by decide, by decide⟩

/-- C4 (amended): the GET helper builds the target URL by prefixing
`https://api.github.com` unless the path already starts with `https://`, in
which case the path is used unchanged; the POST helper always prefixes
`https://api.github.com`, regardless of the path. -/
theorem C4_amended (tr : Transport) (token path : String) (body : Json) :
    (strStartsWith path "https://" = true →
      reqUrls (github_get tr token path) = [path]) ∧
    (strStartsWith path "https://" = false →
      reqUrls (github_get tr token path) = ["https://api.github.com" ++ path]) ∧
    reqUrls (github_post tr token path body) = ["https://api.github.com" ++ path] := by
  refine ⟨fun h => ?_, fun h => ?_, rfl⟩ <;>
    · unfold reqUrls github_get
      dsimp only
      rw [h]
      rfl

/-- C4 (witness): at the non-`https://` path `/x` the GET helper prefixes,
and at the `https://` path `https://x` the POST helper still prefixes. -/
theorem C4_amended_witness :
    reqUrls (github_get trOk "t" "/x") = ["https://api.github.com/x"] ∧
    reqUrls (github_post trOk "t" "https://x" Json.null) = ["https://api.github.comhttps://x"] := by
  refine ⟨?_, (C4_amended trOk "t" "https://x" Json.null).2.2⟩
  have h := (C4_amended trOk "t" "/x" Json.null).2.1 (by decide)
  simpa using h

/-- C5: `get_pr` with owner `o` and repo `r` issues the identical request
URL `https://api.github.com/repos/o/r/pulls/42` whether `number` is
supplied as the JSON integer `42` or as the JSON string `"42"`. -/
theorem C5 :
    reqUrls (get_pr trOk "t" (Json.obj [("owner", Json.str "o"), ("repo", Json.str "r"),
        ("number", Json.num 42)])) = ["https://api.github.com/repos/o/r/pulls/42"] ∧
    reqUrls (get_pr trOk "t" (Json.obj [("owner", Json.str "o"), ("repo", Json.str "r"),
        ("number", Json.str "42")])) = ["https://api.github.com/repos/o/r/pulls/42"] := by
  refine ⟨by decide, by decide⟩

/-- C6: the tool names listed in the descriptor returned by `describe` are
exactly the names on which the request router dispatches: membership in
`describeToolNames` coincides with `routerCase` selecting a handler. -/
theorem C6 (t : String) : t ∈ describeToolNames ↔ (routerCase t).isSome = true := by
  have hd : describeToolNames =
      ["list_repos", "get_repo", "list_issues", "create_issue",
       "list_prs", "get_pr", "get_file", "search_code"] := rfl
  rw [hd]
  constructor
  · intro h
    simp only [List.mem_cons, List.not_mem_nil, or_false] at h
    rcases h with rfl | rfl | rfl | rfl | rfl | rfl | rfl | rfl <;> rfl
  · intro h
    unfold routerCase at h
    split_ifs at h with h1 h2 h3 h4 h5 h6 h7 h8
    · subst h1; decide
    · subst h2; decide
    · subst h3; decide
    · subst h4; decide
    · subst h5; decide
    · subst h6; decide
    · subst h7; decide
    · subst h8; decide
    · simp at h

/-- C6 (witness): the descriptor name `get_repo` has a router case. -/
theorem C6_witness :
    "get_repo" ∈ describeToolNames ↔ (routerCase "get_repo").isSome = true :=
  C6 "get_repo"

/-- C7: `list_repos` with `owner` absent, non-string, or empty issues
GET `https://api.github.com/user/repos?per_page=30&sort=updated`, and with
`owner` equal to `acme` issues
GET `https://api.github.com/users/acme/repos?per_page=30&sort=updated`. -/
theorem C7 (tr : Transport) (token : String) (args args2 : Json)
    (h : argStr args "owner" = none ∨ argStr args "owner" = some "")
    (h2 : argStr args2 "owner" = some "acme") :
    reqLines (list_repos tr token args) =
      [("GET", "https://api.github.com/user/repos?per_page=30&sort=updated")] ∧
    reqLines (list_repos tr token args2) =
      [("GET", "https://api.github.com/users/acme/repos?per_page=30&sort=updated")] := by
  constructor
  · unfold list_repos
    dsimp only
    rw [show getStr args "owner" "" = "" by
      rcases h with h | h
      · exact getStr_of_argStr_none args "owner" "" h
      · exact getStr_of_argStr args "owner" "" "" h]
    rfl
  · unfold list_repos
    dsimp only
    rw [getStr_of_argStr args2 "owner" "" "acme" h2]
    rfl

/-- C7 (witness): with no arguments at all the owner is absent, and with
`owner = "acme"` supplied the per-user path is used. -/
theorem C7_witness :
    reqLines (list_repos trOk "t" (Json.obj [])) =
      [("GET", "https://api.github.com/user/repos?per_page=30&sort=updated")] ∧
    reqLines (list_repos trOk "t" (Json.obj [("owner", Json.str "acme")])) =
      [("GET", "https://api.github.com/users/acme/repos?per_page=30&sort=updated")] :=
  C7 trOk "t" (Json.obj []) (Json.obj [("owner", Json.str "acme")]) (Or.inl rfl) rfl

/-- C8: for `list_issues` and `list_prs` with non-empty `owner` and `repo`,
an omitted (or non-string) `state` argument yields `state=open` in the query
string, and a supplied string value is passed through unchanged into the
query string. -/
theorem C8 (tr : Transport) (token : String) (args : Json) (owner repo : String)
    (how : argStr args "owner" = some owner) (how2 : owner ≠ "")
    (hrep : argStr args "repo" = some repo) (hrep2 : repo ≠ "") :
    (argStr args "state" = none →
      reqLines (list_issues tr token args) =
        [("GET", "https://api.github.com/repos/" ++ owner ++ "/" ++ repo ++
          "/issues?state=open&per_page=30")] ∧
      reqLines (list_prs tr token args) =
        [("GET", "https://api.github.com/repos/" ++ owner ++ "/" ++ repo ++
          "/pulls?state=open&per_page=30")]) ∧
    (∀ s, argStr args "state" = some s →
      reqLines (list_issues tr token args) =
        [("GET", "https://api.github.com/repos/" ++ owner ++ "/" ++ repo ++
          "/issues?state=" ++ s ++ "&per_page=30")] ∧
      reqLines (list_prs tr token args) =
        [("GET", "https://api.github.com/repos/" ++ owner ++ "/" ++ repo ++
          "/pulls?state=" ++ s ++ "&per_page=30")]) := by
  constructor
  · intro hs
    constructor
    · unfold list_issues
      dsimp only
      rw [getStr_of_argStr args "owner" "" owner how, getStr_of_argStr args "repo" "" repo hrep,
        getStr_of_argStr_none args "state" "open" hs]
      rw [if_neg (by simp [how2, hrep2])]
      rw [reqLines_github_get tr token
            ("/repos/" ++ owner ++ "/" ++ repo ++ "/issues?state=" ++ "open" ++ "&per_page=30")
            (strStartsWith_https_false _ _ rfl)]
      refine congrArg (fun u => [("GET", u)]) ?_
      apply String.ext
      simp [String.data_append]
    · unfold list_prs
      dsimp only
      rw [getStr_of_argStr args "owner" "" owner how, getStr_of_argStr args "repo" "" repo hrep,
        getStr_of_argStr_none args "state" "open" hs]
      rw [if_neg (by simp [how2, hrep2])]
      rw [reqLines_github_get tr token
            ("/repos/" ++ owner ++ "/" ++ repo ++ "/pulls?state=" ++ "open" ++ "&per_page=30")
            (strStartsWith_https_false _ _ rfl)]
      refine congrArg (fun u => [("GET", u)]) ?_
      apply String.ext
      simp [String.data_append]
  · intro s hs
    constructor
    · unfold list_issues
      dsimp only
      rw [getStr_of_argStr args "owner" "" owner how, getStr_of_argStr args "repo" "" repo hrep,
        getStr_of_argStr args "state" "open" s hs]
      rw [if_neg (by simp [how2, hrep2])]
      rw [reqLines_github_get tr token
            ("/repos/" ++ owner ++ "/" ++ repo ++ "/issues?state=" ++ s ++ "&per_page=30")
            (strStartsWith_https_false _ _ rfl)]
      refine congrArg (fun u => [("GET", u)]) ?_
      apply String.ext
      simp [String.data_append]
    · unfold list_prs
      dsimp only
      rw [getStr_of_argStr args "owner" "" owner how, getStr_of_argStr args "repo" "" repo hrep,
        getStr_of_argStr args "state" "open" s hs]
      rw [if_neg (by simp [how2, hrep2])]
      rw [reqLines_github_get tr token
            ("/repos/" ++ owner ++ "/" ++ repo ++ "/pulls?state=" ++ s ++ "&per_page=30")
            (strStartsWith_https_false _ _ rfl)]
      refine congrArg (fun u => [("GET", u)]) ?_
      apply String.ext
      simp [String.data_append]

/-- C8 (witness): at `owner = "o"`, `repo = "r"` and `state = "closed"` the
supplied value is passed through into both query strings. -/
theorem C8_witness :
    reqLines (list_issues trOk "t" (Json.obj [("owner", Json.str "o"), ("repo", Json.str "r"),
        ("state", Json.str "closed")])) =
      [("GET", "https://api.github.com/repos/o/r/issues?state=closed&per_page=30")] ∧
    reqLines (list_prs trOk "t" (Json.obj [("owner", Json.str "o"), ("repo", Json.str "r"),
        ("state", Json.str "closed")])) =
      [("GET", "https://api.github.com/repos/o/r/pulls?state=closed&per_page=30")] := by
  have h := (C8 trOk "t"
    (Json.obj [("owner", Json.str "o"), ("repo", Json.str "r"), ("state", Json.str "closed")])
    "o" "r" rfl (by decide) rfl (by decide)).2 "closed" rfl
  exact ⟨by simpa using h.1, by simpa using h.2⟩

/-- C9: `init` issues no request and never propagates a fault, returns the
error object `github_token is required` exactly when the configuration's
`github_token` entry is absent or not a string, and returns the success
object whenever the entry is a string. -/
theorem C9 (input : Json) :
    (init input).snd = [] ∧
    ((init input).fst = Except.ok (jsonError "github_token is required") ↔
      argStr ((input.getField "config").getD Json.null) "github_token" = none) ∧
    (∀ s, argStr ((input.getField "config").getD Json.null) "github_token" = some s →
      (init input).fst = Except.ok (Json.obj [("success", Json.bool true)])) := by
  rcases h : argStr ((input.getField "config").getD Json.null) "github_token" with _ | s
  · refine ⟨?_, ?_, ?_⟩ <;> simp [init, h]
  · refine ⟨?_, ?_, ?_⟩ <;> simp [init, h, jsonError]

/-- C9 (witness): with a configuration carrying a string token, `init`
returns the success object, makes no request, and does not return the
error object. -/
theorem C9_witness :
    (init (Json.obj [("config", cfg0)])).snd = [] ∧
    (init (Json.obj [("config", cfg0)])).fst =
      Except.ok (Json.obj [("success", Json.bool true)]) := by
  obtain ⟨hsnd, _, hsucc⟩ := C9 (Json.obj [("config", cfg0)])
  exact ⟨hsnd, hsucc "t" rfl⟩

/-- C10: when the `tool` field of the input to `process` is absent or not a
JSON string, the tool name defaults to the empty string and `process`
returns the unknown-tool error object with the empty name, issuing no HTTP
request. -/
theorem C10 (tr : Transport) (config input : Json)
    (h : argStr input "tool" = none) :
    process tr config input = (Except.ok (jsonError "unknown tool: "), []) := by
  unfold process
  dsimp only
  rw [getStr_of_argStr_none input "tool" "" h]
  rfl

/-- C10 (witness): an input with no `tool` field yields the unknown-tool
error with the empty name and no request. -/
theorem C10_witness :
    process trOk cfg0 (Json.obj []) = (Except.ok (jsonError "unknown tool: "), []) :=
  C10 trOk cfg0 (Json.obj []) rfl
